import Mathlib

/-!
Verification development for the Volvo CarConnectivity connector
(`src/carconnectivity_connectors/volvo/`). The definitions below are a
shallow embedding, translated from the Python source:
  * `fetchData`        — `Connector._fetch_data`   (connector.py, lines 584–630)
  * the session layer  — `VolvoSession`            (auth/volvo_session.py)
  * the registry       — `SessionManager`          (auth/session_manager.py)
  * the poll loop      — `Connector._background_loop` (connector.py, lines 154–200)
Machine payloads are modelled as `Nat` (abstract decoded JSON documents),
timestamps as `Int` seconds, HTTP status codes as `Nat`.
-/

namespace Volvo

/-- An abstract decoded JSON payload. -/
abbrev Payload := Nat

/-! ## The session layer: `VolvoSession` (auth/volvo_session.py)

`VolvoSession(requests.Session)` — its `__init__` (lines 26–33) assigns
`self.timeout`, `self._access_token`, `self._retries`, `self.cache` and
updates `self.headers`; the class additionally defines the properties
`retries` (lines 35–65) and `token` (lines 67–75) and the methods
`request` / `add_token`.  It defines **no** `login` method and assigns
**no** `metadata` attribute, and neither does its base class
`requests.Session` (whose `__init__` binds `headers`, `auth`, `proxies`,
`hooks`, `params`, `stream`, `verify`, `cert`, `max_redirects`,
`trust_env`, `cookies`, `adapters`). -/

/-- A per-session URL cache blob: url ↦ (payload, capture timestamp). -/
abbrev CacheBlob := List (String × Payload × Int)

/-- The state of one `VolvoSession` object, with the instance attributes
assigned in `VolvoSession.__init__` (auth/volvo_session.py lines 26–33).
`sid` models Python object identity of the session object. -/
structure VolvoSessionObj where
  sid : Nat
  accessToken : String
  timeout : Option Int
  retries : Nat
  cache : CacheBlob
  apiKeyHeader : String
  deriving Repr, DecidableEq

/-- Python attribute values reachable through `getattr` on a `VolvoSession`. -/
inductive PyVal where
  | str (s : String)
  | int (n : Int)
  | pyNone
  | blob (c : CacheBlob)
  | boxed (tag : String)
  deriving Repr, DecidableEq

/-- Python exceptions raised by the modelled code. -/
inductive PyErr where
  | attributeError (name : String)
  | valueError (msg : String)
  | authenticationError (msg : String)
  deriving Repr, DecidableEq

/-- The instance attribute dictionary of a `VolvoSession` object: the
attributes bound by `requests.Session.__init__` followed by those bound by
`VolvoSession.__init__` (auth/volvo_session.py lines 26–33). No entry is
named `metadata` or `login`, because neither class ever binds one. -/
def VolvoSessionObj.attrDict (s : VolvoSessionObj) : List (String × PyVal) :=
  [("headers", .str s.apiKeyHeader), ("auth", .boxed "auth"),
   ("proxies", .boxed "proxies"), ("hooks", .boxed "hooks"),
   ("params", .boxed "params"), ("stream", .boxed "stream"),
   ("verify", .boxed "verify"), ("cert", .boxed "cert"),
   ("max_redirects", .boxed "max_redirects"), ("trust_env", .boxed "trust_env"),
   ("cookies", .boxed "cookies"), ("adapters", .boxed "adapters"),
   ("timeout", s.timeout.elim .pyNone .int), ("_access_token", .str s.accessToken),
   ("_retries", .int s.retries), ("cache", .blob s.cache)]

/-- Python attribute lookup on a `VolvoSession` object: first the instance
dictionary, then the class properties `retries` (auth/volvo_session.py
lines 35–43) and `token` (lines 67–75); any other name raises
`AttributeError`. -/
def VolvoSessionObj.getattr (s : VolvoSessionObj) (name : String) : Except PyErr PyVal :=
  match (s.attrDict.lookup name) with
  | some v => .ok v
  | none =>
    if name = "retries" then .ok (.int s.retries)
    else if name = "token" then .ok (.str s.accessToken)
    else .error (.attributeError name)

/-- The retry configuration built by the `retries` setter
(auth/volvo_session.py lines 45–65): `BlacklistRetry(total=n,
backoff_factor=0.1, status_forcelist=[500], status_blacklist=[429],
raise_on_status=False)`. -/
structure RetryCfg where
  total : Nat
  statusForcelist : List Nat
  statusBlacklist : List Nat
  deriving Repr, DecidableEq

/-- The `retries` property setter (auth/volvo_session.py lines 45–65):
`self._retries = new_retries_value; if new_retries_value:` mount an
adapter with `BlacklistRetry(total=…, status_forcelist=[500],
status_blacklist=[429])`. A falsy value (0 / False) mounts no retry
adapter, modelled as `none`. -/
def retriesConfig (newRetriesValue : Nat) : Option RetryCfg :=
  if newRetriesValue ≠ 0 then
    some { total := newRetriesValue, statusForcelist := [500], statusBlacklist := [429] }
  else none

/-- Modelled from the spec: the repository file
`src/carconnectivity_connectors/volvo/auth/helpers/blacklist_retry.py`
(class `BlacklistRetry`, imported in auth/volvo_session.py line 14) is not
under src/. Per the spec (§4.2), a status is eligible for internal retry
iff it is in the configured status-forcelist and NOT in the status
blacklist: the blacklist "is explicitly EXCLUDED from the retry machinery
even if it would otherwise match". -/
def RetryCfg.isRetry (c : RetryCfg) (status : Nat) : Bool :=
  (status ∈ c.statusForcelist) && !(status ∈ c.statusBlacklist)

/-- Whether `VolvoSession` defines a `login` method. Neither
`VolvoSession` (auth/volvo_session.py) nor its base `requests.Session`
defines one, so calling `session.login()` raises `AttributeError`.
Kept as a named constant so the orchestrator embedding below can be read
against the call `session.login()` at connector.py line 606. -/
def volvoSessionHasLogin : Bool := false

/-! ## The fetch orchestrator: `Connector._fetch_data` (connector.py 584–630) -/

/-- Result of one `session.get(url, allow_redirects=False)` call: either a
response (status code plus the result of a later `.json()` call — `none`
models a `JSONDecodeError`), or one of the transport-level exceptions
caught at connector.py lines 617–624. -/
inductive GetResult where
  | resp (status : Nat) (body : Option Payload)
  | connError
  | chunkedError
  | readTimeout
  | retryError
  deriving Repr, DecidableEq

/-- The typed failures `_fetch_data` can surface to its caller. -/
inductive FetchErr where
  | tooManyRequests
  | retrieval
  | attributeError (name : String)
  deriving Repr, DecidableEq

instance {ε α : Type} [DecidableEq ε] [DecidableEq α] : DecidableEq (Except ε α) := fun a b =>
  match a, b with
  | .error e, .error f => decidable_of_iff (e = f) (by simp)
  | .error _, .ok _ => isFalse (by simp)
  | .ok _, .error _ => isFalse (by simp)
  | .ok x, .ok y => decidable_of_iff (x = y) (by simp)

/-- What one `_fetch_data` call did: its returned value (`.ok none` is
Python `None`, "no data"), how many network GETs it issued, how many
`session.login()` calls it attempted, and the cache write-through it
performed. -/
structure FetchResultT where
  result : Except FetchErr (Option Payload)
  gets : Nat
  logins : Nat
  cacheWrite : Option (Payload × Int)
  deriving Repr, DecidableEq

/-- Keyword arguments of `_fetch_data` (connector.py line 584) with their
source defaults. -/
structure FetchArgs where
  force : Bool := false
  allowEmpty : Bool := false
  allowHttpError : Bool := false
  allowedErrors : Option (List Nat) := none
  deriving Repr, DecidableEq

/-- connector.py lines 613 and 615: re-raise condition for a non-success
status — `not allow_http_error or (allowed_errors is not None and
status_response.status_code not in allowed_errors)`. -/
def raisesOnStatus (a : FetchArgs) (status : Nat) : Bool :=
  !a.allowHttpError || (a.allowedErrors.elim false (fun l => !(status ∈ l)))

/-- Evaluation of the retried GET after `session.login()`
(connector.py lines 607–614): 200/207 decode and write through to the
cache; any other status raises `RetrievalError` unless allowed.
Transport exceptions from this GET are caught by the same handlers
(lines 617–629) as the first GET. -/
def evalSecondGet (a : FetchArgs) (hasCacheDict : Bool) (now : Int) :
    GetResult → Except FetchErr (Option Payload) × Option (Payload × Int)
  | .resp s b =>
    if s = 200 ∨ s = 207 then
      match b with
      | some p => (.ok (some p), if hasCacheDict then some (p, now) else none)
      | none => (if a.allowEmpty then .ok none else .error .retrieval, none)
    else if raisesOnStatus a s then (.error .retrieval, none)
    else (.ok none, none)
  | .connError => (.error .retrieval, none)
  | .chunkedError => (.error .retrieval, none)
  | .readTimeout => (.error .retrieval, none)
  | .retryError => (.error .retrieval, none)

/-- The network block of `_fetch_data` (connector.py lines 592–629),
entered when the cache could not serve the call. `firstGet`/`secondGet`
are the outcomes of the (at most two) `session.get` calls. -/
def fetchNetwork (a : FetchArgs) (hasCacheDict : Bool) (now : Int)
    (firstGet secondGet : GetResult) : FetchResultT :=
  match firstGet with
  | .resp s b =>
    if s = 200 ∨ s = 207 then
      match b with
      | some p =>
        { result := .ok (some p), gets := 1, logins := 0,
          cacheWrite := if hasCacheDict then some (p, now) else none }
      | none =>
        { result := if a.allowEmpty then .ok none else .error .retrieval,
          gets := 1, logins := 0, cacheWrite := none }
    else if s = 204 ∧ a.allowEmpty then
      { result := .ok none, gets := 1, logins := 0, cacheWrite := none }
    else if s = 429 then
      { result := .error .tooManyRequests, gets := 1, logins := 0, cacheWrite := none }
    else if s = 401 then
      -- connector.py line 606: `session.login()` — `VolvoSession` defines no
      -- `login`, so the call raises `AttributeError`, which no handler at
      -- lines 617–629 catches; it escapes `_fetch_data` before the retried GET.
      if volvoSessionHasLogin then
        let (r, w) := evalSecondGet a hasCacheDict now secondGet
        { result := r, gets := 2, logins := 1, cacheWrite := w }
      else
        { result := .error (.attributeError "login"), gets := 1, logins := 1,
          cacheWrite := none }
    else if raisesOnStatus a s then
      { result := .error .retrieval, gets := 1, logins := 0, cacheWrite := none }
    else
      { result := .ok none, gets := 1, logins := 0, cacheWrite := none }
  | .connError => { result := .error .retrieval, gets := 1, logins := 0, cacheWrite := none }
  | .chunkedError => { result := .error .retrieval, gets := 1, logins := 0, cacheWrite := none }
  | .readTimeout => { result := .error .retrieval, gets := 1, logins := 0, cacheWrite := none }
  | .retryError => { result := .error .retrieval, gets := 1, logins := 0, cacheWrite := none }

/-- `Connector._fetch_data` (connector.py lines 584–630).
`maxAge` is `self.active_config['max_age']`; `cacheDict` models
`session.cache` (`none` = the session has no cache dict, `some none` =
dict present but no entry for this url, `some (some (p, T))` = entry with
payload `p` captured at time `T`); `now` is `datetime.utcnow()`.

Lines 586–591: the cache is read only when `not force and max_age is not
None and session.cache is not None and url in session.cache`; the network
block runs when `data is None or max_age is None or cache_date <
utcnow() - timedelta(seconds=max_age)`. -/
def fetchData (maxAge : Option Int) (cacheDict : Option (Option (Payload × Int)))
    (now : Int) (a : FetchArgs) (firstGet secondGet : GetResult) : FetchResultT :=
  match a.force, maxAge, cacheDict with
  | false, some m, some (some (p, t)) =>
    -- cache entry read (lines 587–589); line 590–591: refetch iff
    -- `cache_date < utcnow() - timedelta(seconds=max_age)`
    if t < now - m then fetchNetwork a true now firstGet secondGet
    else { result := .ok (some p), gets := 0, logins := 0, cacheWrite := none }
  | _, _, _ => fetchNetwork a cacheDict.isSome now firstGet secondGet

/-! ## The registry: `SessionManager` (auth/session_manager.py) -/

/-- The `Service` enum (auth/session_manager.py lines 19–36). -/
inductive Service where
  | volvoConnectedVehicle
  | volvoEnergy
  | volvoLocation
  deriving Repr, DecidableEq

/-- `Service.value` / `Service.__str__` (auth/session_manager.py lines 31–36). -/
def Service.value : Service → String
  | .volvoConnectedVehicle => "VolvoConnectedVehicleAPI"
  | .volvoEnergy => "VolvoEnergyAPI"
  | .volvoLocation => "VolvoLocationAPI"

/-- `SessionToken` (auth/session_manager.py lines 39–59). The class defines
no `__eq__`/`__hash__`, so as a dict key it compares by Python object
identity, modelled by `oid`. -/
structure SessionToken where
  vccApiKeyPrimary : String
  vccApiKeySecondary : String
  accessToken : String
  oid : Nat
  deriving Repr, DecidableEq

/-- `SessionToken.__str__` (auth/session_manager.py lines 58–59):
`f'{primary}:{secondary}:{access_token}'`. -/
def SessionToken.toStr (t : SessionToken) : String :=
  t.vccApiKeyPrimary ++ ":" ++ t.vccApiKeySecondary ++ ":" ++ t.accessToken

/-- Whether two `SessionToken`s carry identical credential fields
(`oid` — object identity — may differ). -/
def SessionToken.fieldsEq (t₁ t₂ : SessionToken) : Prop :=
  t₁.vccApiKeyPrimary = t₂.vccApiKeyPrimary ∧
  t₁.vccApiKeySecondary = t₂.vccApiKeySecondary ∧
  t₁.accessToken = t₂.accessToken

instance : DecidablePred (fun p : SessionToken × SessionToken => p.1.fieldsEq p.2) :=
  fun _ => by unfold SessionToken.fieldsEq; infer_instance

/-- The pre-digest string of `SessionManager.generate_hash`
(auth/session_manager.py line 83): `service.value + str(session_token)`. -/
def generateHashInput (service : Service) (t : SessionToken) : String :=
  service.value ++ t.toStr

/-- `SessionManager.generate_hash` (auth/session_manager.py lines 71–84),
parameterized over the external `hashlib.sha512(·).hexdigest()` function. -/
def generate_hash (sha : String → String) (service : Service) (t : SessionToken) : String :=
  sha (generateHashInput service t)

/-- `SessionManager.generate_identifier` (auth/session_manager.py
lines 86–98). -/
def generate_identifier (sha : String → String) (service : Service) (t : SessionToken) : String :=
  "CarConnectivity-connector-volvo:" ++ generate_hash sha service t

/-- One tokenstore record: `{'token': …, 'metadata': …}` as written by
`persist`, values being whatever `getattr` produced. -/
structure TokenEntry where
  token : Option PyVal := none
  metadata : Option PyVal := none
  deriving Repr, DecidableEq

abbrev TokenStore := List (String × TokenEntry)
abbrev CacheStore := List (String × CacheBlob)

instance : DecidableEq (TokenStore × CacheStore) := instDecidableEqProd

/-- `SessionManager` state (auth/session_manager.py lines 62–69): the two
host-supplied stores and the live-session dict keyed by
`(service, session_token)` — token identity, since `SessionToken` has
default equality. `nextSid` supplies fresh object identities for newly
constructed `VolvoSession` objects. -/
structure ManagerState where
  tokenstore : TokenStore
  cacheStore : CacheStore
  sessions : List ((Service × SessionToken) × VolvoSessionObj)
  nextSid : Nat
  deriving Repr, DecidableEq

/-- Dict lookup in `self.sessions` keyed by `(service, session_token)`:
`Service` values compare by value, `SessionToken`s by object identity. -/
def ManagerState.lookupSession (m : ManagerState) (service : Service) (t : SessionToken) :
    Option VolvoSessionObj :=
  (m.sessions.find? (fun e => e.1.1 = service ∧ e.1.2.oid = t.oid)).map (·.2)

/-- The `VolvoSession(...)` construction at auth/session_manager.py
lines 131–133: built from the token's credential fields and the cache
previously persisted under the generated identifier (line 128–129, `{}`
when absent). The token/metadata loaded from the tokenstore at
lines 122–127 are read into locals and then dropped — the new session is
seeded from `session_token.access_token`, not the persisted token. -/
def mkVolvoSession (sha : String → String) (m : ManagerState)
    (service : Service) (t : SessionToken) : VolvoSessionObj :=
  { sid := m.nextSid, accessToken := t.accessToken, timeout := none, retries := 0,
    cache := (m.cacheStore.lookup (generate_identifier sha service t)).getD [],
    apiKeyHeader := t.vccApiKeyPrimary }

/-- The manager state after storing a freshly constructed session
(auth/session_manager.py line 137). -/
def ManagerState.store (m : ManagerState) (service : Service) (t : SessionToken)
    (s : VolvoSessionObj) : ManagerState :=
  { m with sessions := ((service, t), s) :: m.sessions, nextSid := m.nextSid + 1 }

/-- `SessionManager.get_session` (auth/session_manager.py lines 100–138).
Returns the (possibly new) session together with the updated manager
state; on the unsupported-service `ValueError` (line 135) the state is
returned unchanged — the store at line 137 is never reached. -/
def SessionManager.get_session (sha : String → String) (m : ManagerState)
    (service : Service) (t : SessionToken) :
    Except PyErr VolvoSessionObj × ManagerState :=
  match m.lookupSession service t with
  | some s => (.ok s, m)
  | none =>
    match service with
    | .volvoConnectedVehicle =>
      (.ok (mkVolvoSession sha m service t),
       m.store service t (mkVolvoSession sha m service t))
    | _ => (.error (.valueError ("Unsupported service: " ++ service.value)), m)

/-- Insert/replace a key in an association list (Python dict assignment). -/
def storePut {α : Type} (store : List (String × α)) (k : String) (v : α) :
    List (String × α) :=
  (k, v) :: store.filter (fun e => e.1 ≠ k)

/-- `SessionManager.persist` (auth/session_manager.py lines 140–153): for
every live session, write `{'token': session.token, 'metadata':
session.metadata}` into the tokenstore and `session.cache` into the cache
store under the generated identifier. `session.token` resolves through
the class property; `session.metadata` is a plain attribute lookup. -/
def SessionManager.persist (sha : String → String) (m : ManagerState) :
    Except PyErr (TokenStore × CacheStore) :=
  m.sessions.foldlM
    (fun (acc : TokenStore × CacheStore) e => do
      let ((service, user), session) := e
      let identifier := generate_identifier sha service user
      let tok ← session.getattr "token"
      let md ← session.getattr "metadata"
      pure (storePut acc.1 identifier { token := some tok, metadata := some md },
            storePut acc.2 identifier session.cache))
    (m.tokenstore, m.cacheStore)

/-! ## Connector construction (connector.py lines 76–146) -/

/-- The configuration dict fields `Connector.__init__` reads. A `none`
field is absent-or-null (the code treats `'k' in config and config['k']
is not None` as presence). `maxAge` is doubly optional: absent, or
present with a possibly-null value. -/
structure VolvoConfig where
  vccApiKeyPrimary : Option String := none
  vccApiKeySecondary : Option String := none
  connectedVehicleToken : Option String := none
  locationToken : Option String := none
  interval : Option Int := none
  maxAge : Option (Option Int) := none
  deriving Repr, DecidableEq

/-- The connector state produced by a successful `Connector.__init__`. -/
structure ConnectorState where
  activeInterval : Int
  activeMaxAge : Option Int
  manager : ManagerState
  connectedVehicleSession : VolvoSessionObj
  locationSession : Option VolvoSessionObj
  deriving Repr, DecidableEq

/-- `Connector.__init__` (connector.py lines 76–146): validate the config
(missing keys → `AuthenticationError`, interval < 60 → `ValueError`),
default `interval` to 180 and `max_age` to `interval - 1`, then request a
`VOLVO_CONNECTED_VEHICLE` session and — when a `location_token` is
configured — a `VOLVO_LOCATION` session from the manager. Errors from
`get_session` are not caught and propagate out of the constructor. -/
def connectorInit (sha : String → String) (tokenstore : TokenStore)
    (cacheStore : CacheStore) (cfg : VolvoConfig) : Except PyErr ConnectorState := do
  let _primary ← match cfg.vccApiKeyPrimary with
    | some p => pure p
    | none => throw (.authenticationError "vcc_api_key_primary was not found in config")
  let _secondary ← match cfg.vccApiKeySecondary with
    | some s => pure s
    | none => throw (.authenticationError "vcc_api_key_secondary was not found in config")
  let _cvToken ← match cfg.connectedVehicleToken with
    | some t => pure t
    | none => throw (.authenticationError "connected_vehicle_token was not found in config")
  let interval ← match cfg.interval with
    | none => pure (180 : Int)
    | some i =>
      if i < 60 then throw (.valueError "Intervall must be at least 60 seconds")
      else pure i
  let maxAge : Option Int := match cfg.maxAge with
    | none => some (interval - 1)
    | some v => v
  let m0 : ManagerState :=
    { tokenstore := tokenstore, cacheStore := cacheStore, sessions := [], nextSid := 0 }
  let t0 : SessionToken :=
    { vccApiKeyPrimary := _primary, vccApiKeySecondary := _secondary,
      accessToken := _cvToken, oid := 0 }
  let (r1, m1) := SessionManager.get_session sha m0 .volvoConnectedVehicle t0
  let cvSession ← r1
  let cvSession := { cvSession with retries := 3, timeout := some 180 }
  match cfg.locationToken with
  | some lt =>
    let t1 : SessionToken :=
      { vccApiKeyPrimary := _primary, vccApiKeySecondary := _secondary,
        accessToken := lt, oid := 1 }
    let (r2, m2) := SessionManager.get_session sha m1 .volvoLocation t1
    let locSession ← r2
    pure { activeInterval := interval, activeMaxAge := maxAge, manager := m2,
           connectedVehicleSession := cvSession,
           locationSession := some { locSession with retries := 3, timeout := some 180 } }
  | none =>
    pure { activeInterval := interval, activeMaxAge := maxAge, manager := m1,
           connectedVehicleSession := cvSession, locationSession := none }

/-! ## The background poll loop: `Connector._background_loop`
(connector.py lines 154–200) -/

/-- `carconnectivity.enums.ConnectionState` values the connector writes. -/
inductive ConnState where
  | disconnected
  | connecting
  | connected
  | error
  deriving Repr, DecidableEq

/-- The classified exceptions handled by the loop's `except` clauses
(connector.py lines 175–190). -/
inductive LoopErr where
  | tooManyRequests
  | retrieval
  | apiCompat
  | tempAuth
  deriving Repr, DecidableEq

/-- Outcome of one loop-body cycle (`fetch_all` / `update_vehicles` plus
bookkeeping): success, a classified failure, or an unclassified fatal
exception (handled by the bare `except Exception` at lines 191–195). -/
inductive CycleOutcome where
  | success
  | failure (e : LoopErr)
  | fatal
  deriving Repr, DecidableEq

/-- The initial value of the `connection_state` attribute, set at
construction (connector.py lines 82–83). -/
def initialConnectionState : ConnState := .disconnected

/-- Effects of one loop iteration. -/
structure IterResult where
  writes : List ConnState
  sleep : Option Int
  healthyFalse : Bool
  raises : Bool
  deriving Repr, DecidableEq

/-- One iteration of the loop body (connector.py lines 159–198).
`interval` starts at 300 and is overwritten from `self.interval.value`
when that is set — on both the success path (lines 168–169) and, via the
inner handler (lines 170–174), the failure paths. On success the loop
writes CONNECTED and waits the interval (lines 196–198). On a classified
failure the inner handler writes ERROR and re-raises, the matching outer
handler writes ERROR again and waits — 900 s for `TooManyRequestsError`
(line 178), the interval otherwise (lines 182, 186, 190). On an
unclassified exception the handlers write ERROR twice, set
`healthy = False` and re-raise (lines 191–195). -/
def loopIter (cfgInterval : Option Int) (o : CycleOutcome) : IterResult :=
  let interval := cfgInterval.getD 300
  match o with
  | .success => { writes := [.connected], sleep := some interval,
                  healthyFalse := false, raises := false }
  | .failure .tooManyRequests =>
      { writes := [.error, .error], sleep := some 900,
        healthyFalse := false, raises := false }
  | .failure _ =>
      { writes := [.error, .error], sleep := some interval,
        healthyFalse := false, raises := false }
  | .fatal => { writes := [.error, .error], sleep := none,
                healthyFalse := true, raises := true }

/-- The `while not self._stop_event.is_set()` body iterated over a
schedule of cycle outcomes; processing stops at the first fatal outcome
(whose exception propagates out of the loop). Returns the connection
state writes of all executed iterations and whether the loop aborted
fatally. -/
def runLoop (cfgInterval : Option Int) : List CycleOutcome → List ConnState × Bool
  | [] => ([], false)
  | o :: rest =>
    let r := loopIter cfgInterval o
    if r.raises then (r.writes, true)
    else (r.writes ++ (runLoop cfgInterval rest).1, (runLoop cfgInterval rest).2)

/-- `Connector._background_loop` (connector.py lines 154–200): write
CONNECTING (line 157), run the loop, and — only when the loop exits
normally via the stop signal — write DISCONNECTED (line 200). A fatal
iteration re-raises, skipping line 200. Returns (all connection-state
writes, aborted-fatally flag). -/
def backgroundLoop (cfgInterval : Option Int) (outcomes : List CycleOutcome) :
    List ConnState × Bool :=
  (.connecting :: ((runLoop cfgInterval outcomes).1 ++
      (if (runLoop cfgInterval outcomes).2 then [] else [.disconnected])),
   (runLoop cfgInterval outcomes).2)

/-- The `healthy` flag after `startup` + loop termination: `startup` sets
it `True` (connector.py line 152); the unclassified handler sets it
`False` (line 193). -/
def healthyAfter (cfgInterval : Option Int) (outcomes : List CycleOutcome) : Bool :=
  !(backgroundLoop cfgInterval outcomes).2

/-! ## Helper lemmas -/

/-- Every branch of the network block issues at least one GET. -/
theorem fetchNetwork_gets_pos (a : FetchArgs) (h : Bool) (now : Int)
    (g₁ g₂ : GetResult) : 1 ≤ (fetchNetwork a h now g₁ g₂).gets := by
  cases g₁ with
  | resp s b =>
    simp only [fetchNetwork]
    split
    · cases b <;> simp
    · split
      · simp
      · split
        · simp
        · split
          · split <;> simp
          · split <;> simp
  | connError => exact Nat.le_refl 1
  | chunkedError => exact Nat.le_refl 1
  | readTimeout => exact Nat.le_refl 1
  | retryError => exact Nat.le_refl 1

/-- A `_fetch_data` call either entered the network block or answered from
the cache with zero GETs. -/
theorem fetchData_network_or_cached (M : Option Int) (C : Option (Option (Payload × Int)))
    (now : Int) (a : FetchArgs) (g₁ g₂ : GetResult) :
    (∃ h : Bool, fetchData M C now a g₁ g₂ = fetchNetwork a h now g₁ g₂) ∨
    (fetchData M C now a g₁ g₂).gets = 0 := by
  unfold fetchData
  split
  · split
    · exact .inl ⟨true, rfl⟩
    · exact .inr rfl
  · exact .inl ⟨_, rfl⟩

/-- The network block maps a first 429 response to `TooManyRequestsError`
with no further GET and no login (connector.py lines 601–603). -/
theorem fetchNetwork_429 (a : FetchArgs) (h : Bool) (now : Int) (j : Option Payload)
    (g₂ : GetResult) :
    fetchNetwork a h now (.resp 429 j) g₂ =
      { result := .error .tooManyRequests, gets := 1, logins := 0, cacheWrite := none } := by
  simp [fetchNetwork]

/-! ## C1 — 401 re-authentication -/

/-- C1: on a first 401 response, `_fetch_data` attempts `session.login()`
(connector.py line 606), but `VolvoSession` defines no `login` method, so
the call raises `AttributeError` and escapes `_fetch_data`: no retried GET
is issued (here the second GET would have succeeded with payload 7) and
the failure is not a `RetrievalError`. Evaluated at the failing input:
cache dict present but empty, `max_age = 179`. -/
theorem fetch401_raises_attributeError :
    fetchData (some 179) (some none) 1000 {} (.resp 401 none) (.resp 200 (some 7)) =
      { result := .error (.attributeError "login"), gets := 1, logins := 1,
        cacheWrite := none } := by decide

/-! ## C4 — cache freshness -/

/-- C4 counterexample: at exactly `T' = T + M` (entry written at T = 0,
`max_age` M = 5, read at T' = 5) the code serves the cached payload with
zero network GETs, while the claim requires a network fetch for
`T' >= T + M`. The first GET is a 500 here, so a network path would have
produced a `RetrievalError`, not `.ok`. -/
theorem cache_boundary_serves_stale :
    fetchData (some 5) (some (some (7, 0))) 5 {} (.resp 500 none) (.resp 500 none) =
      { result := .ok (some 7), gets := 0, logins := 0, cacheWrite := none } := by decide

/-- C4 amended: with `force = false` and a cache entry (payload `p`,
captured at `T`) present under a configured `max_age = M`, a read at `now`
is served from the cache without any network call iff `now ≤ T + M`
(the source comparison `cache_date < utcnow() - timedelta(seconds=max_age)`
is strict, so the boundary instant `now = T + M` is still fresh); for
`now > T + M` a network GET is issued; and when `max_age` is `None` every
read issues a network GET regardless of the cache. -/
theorem cache_freshness (m T now : Int) (p : Payload) (a : FetchArgs)
    (C : Option (Option (Payload × Int))) (g₁ g₂ : GetResult)
    (hforce : a.force = false) :
    (now ≤ T + m →
      fetchData (some m) (some (some (p, T))) now a g₁ g₂ =
        { result := .ok (some p), gets := 0, logins := 0, cacheWrite := none }) ∧
    (T + m < now →
      1 ≤ (fetchData (some m) (some (some (p, T))) now a g₁ g₂).gets) ∧
    1 ≤ (fetchData none C now a g₁ g₂).gets := by
  refine ⟨?_, ?_, ?_⟩
  · intro h
    unfold fetchData
    simp only [hforce]
    rw [if_neg (by omega : ¬ T < now - m)]
  · intro h
    unfold fetchData
    simp only [hforce]
    rw [if_pos (by omega : T < now - m)]
    exact fetchNetwork_gets_pos ..
  · have he : fetchData none C now a g₁ g₂ = fetchNetwork a C.isSome now g₁ g₂ := by
      unfold fetchData
      cases hf : a.force <;> rfl
    rw [he]
    exact fetchNetwork_gets_pos ..

/-- Witness for `cache_freshness` at concrete inputs. -/
theorem cache_freshness_witness :
    (fetchData (some 5) (some (some (7, 0))) 3 {} (.resp 500 none) (.resp 500 none) =
      { result := .ok (some 7), gets := 0, logins := 0, cacheWrite := none }) ∧
    1 ≤ (fetchData (some 5) (some (some (7, 0))) 9 {} (.resp 500 none) (.resp 500 none)).gets ∧
    1 ≤ (fetchData none (some (some (7, 0))) 3 {} (.resp 500 none) (.resp 500 none)).gets := by
  have h := cache_freshness 5 0 3 7 {} (some (some (7, 0))) (.resp 500 none) (.resp 500 none) rfl
  have h9 := cache_freshness 5 0 9 7 {} (some (some (7, 0))) (.resp 500 none) (.resp 500 none) rfl
  exact ⟨h.1 (by norm_num), h9.2.1 (by norm_num), h.2.2⟩

/-! ## C5 — quota isolation (429) -/

/-- C5: (i) whenever `_fetch_data` enters the network block (issues at
least one GET) and the first response is a 429, the call fails with
`TooManyRequestsError`, after exactly one GET and no re-login attempt;
(ii) the retry adapter mounted by the `retries` setter — for every
retry count — carries `status_forcelist=[500]` and `status_blacklist=[429]`,
under which 429 is never retried while 500 is; a falsy retry count mounts
no adapter at all. -/
theorem quota_isolation (M : Option Int) (C : Option (Option (Payload × Int)))
    (now : Int) (a : FetchArgs) (j : Option Payload) (g₂ : GetResult) :
    (1 ≤ (fetchData M C now a (.resp 429 j) g₂).gets →
      fetchData M C now a (.resp 429 j) g₂ =
        { result := .error .tooManyRequests, gets := 1, logins := 0, cacheWrite := none }) ∧
    (∀ (n : Nat) (cfg : RetryCfg), retriesConfig n = some cfg →
      cfg.isRetry 429 = false ∧ cfg.isRetry 500 = true) ∧
    retriesConfig 0 = none := by
  refine ⟨?_, ?_, rfl⟩
  · intro hg
    rcases fetchData_network_or_cached M C now a (.resp 429 j) g₂ with ⟨hb, h⟩ | h
    · rw [h, fetchNetwork_429]
    · omega
  · intro n cfg hcfg
    unfold retriesConfig at hcfg
    split at hcfg
    · cases hcfg
      exact ⟨rfl, rfl⟩
    · cases hcfg

/-- Witness for `quota_isolation` at concrete inputs. -/
theorem quota_isolation_witness :
    fetchData none none 0 {} (.resp 429 none) (.resp 200 none) =
      { result := .error .tooManyRequests, gets := 1, logins := 0, cacheWrite := none } ∧
    RetryCfg.isRetry { total := 3, statusForcelist := [500], statusBlacklist := [429] } 429
      = false := by
  have h := quota_isolation none none 0 {} none (.resp 200 none)
  exact ⟨h.1 (by decide), (h.2.1 3 _ rfl).1⟩

/-! ## Loop helper lemmas -/

theorem loopIter_raises_iff (cfg : Option Int) (o : CycleOutcome) :
    (loopIter cfg o).raises = true ↔ o = .fatal := by
  cases o with
  | success => simp [loopIter]
  | failure e => cases e <;> simp [loopIter]
  | fatal => simp [loopIter]

theorem loopIter_writes_cases (cfg : Option Int) (o : CycleOutcome) :
    (loopIter cfg o).writes = [.connected] ∨ (loopIter cfg o).writes = [.error, .error] := by
  cases o with
  | success => exact .inl rfl
  | failure e => cases e <;> exact .inr rfl
  | fatal => exact .inr rfl

theorem runLoop_mem (cfg : Option Int) (l : List CycleOutcome) :
    ∀ s ∈ (runLoop cfg l).1, s = .connected ∨ s = .error := by
  induction l with
  | nil => intro s hs; simp [runLoop] at hs
  | cons o rest ih =>
    intro s hs
    unfold runLoop at hs
    rcases loopIter_writes_cases cfg o with hw | hw
    · by_cases hr : (loopIter cfg o).raises
      · rw [if_pos hr, hw] at hs
        simp at hs
        exact .inl hs
      · rw [if_neg hr, hw] at hs
        simp only [List.mem_append, List.mem_singleton] at hs
        rcases hs with hs | hs
        · exact .inl hs
        · exact ih s hs
    · by_cases hr : (loopIter cfg o).raises
      · rw [if_pos hr, hw] at hs
        simp at hs
        exact .inr hs
      · rw [if_neg hr, hw] at hs
        simp only [List.mem_append, List.mem_cons, List.mem_singleton] at hs
        rcases hs with (hs | hs | hs) | hs
        · exact .inr hs
        · exact .inr hs
        · simp at hs
        · exact ih s hs

theorem runLoop_aborted_iff (cfg : Option Int) (l : List CycleOutcome) :
    (runLoop cfg l).2 = true ↔ .fatal ∈ l := by
  induction l with
  | nil => simp [runLoop]
  | cons o rest ih =>
    unfold runLoop
    by_cases hr : (loopIter cfg o).raises
    · rw [if_pos hr]
      have ho : o = .fatal := (loopIter_raises_iff cfg o).mp hr
      simp [ho]
    · rw [if_neg hr]
      have ho : o ≠ .fatal := fun h => hr ((loopIter_raises_iff cfg o).mpr h)
      simp only [List.mem_cons]
      rw [ih]
      constructor
      · exact fun h => .inr h
      · rintro (h | h)
        · exact absurd h.symm ho
        · exact h

theorem runLoop_getLast_of_aborted (cfg : Option Int) (l : List CycleOutcome)
    (h : (runLoop cfg l).2 = true) : (runLoop cfg l).1.getLast? = some .error := by
  induction l with
  | nil => simp [runLoop] at h
  | cons o rest ih =>
    unfold runLoop at h ⊢
    by_cases hr : (loopIter cfg o).raises
    · rw [if_pos hr] at h ⊢
      have ho : o = .fatal := (loopIter_raises_iff cfg o).mp hr
      subst ho
      rfl
    · rw [if_neg hr] at h ⊢
      have hrest := ih h
      have hne : (runLoop cfg rest).1 ≠ [] := by
        intro hnil
        rw [hnil] at hrest
        simp at hrest
      rw [List.getLast?_append_of_ne_nil _ hne]
      exact hrest

/-! ## C6 — backoff selection -/

/-- C6: in any loop iteration, a `TooManyRequestsError` writes ERROR and
sleeps exactly 900 s regardless of the configured interval (connector.py
lines 175–178), while `RetrievalError`, `APICompatibilityError` and
`TemporaryAuthenticationError` write ERROR and sleep the configured
interval (lines 179–190). -/
theorem backoff_selection (cfg : Option Int) (i : Int) (e : LoopErr) :
    (loopIter cfg (.failure .tooManyRequests)).sleep = some 900 ∧
    (loopIter cfg (.failure .tooManyRequests)).writes = [.error, .error] ∧
    (loopIter (some i) (.failure e)).sleep =
      (if e = .tooManyRequests then some 900 else some i) ∧
    (loopIter (some i) (.failure e)).writes = [.error, .error] ∧
    (loopIter (some i) .success).sleep = some i := by
  refine ⟨rfl, rfl, ?_, ?_, rfl⟩
  · cases e <;> rfl
  · cases e <;> rfl

/-! ## C7 — connection-state transitions -/

/-- C7: the connection-state observable starts DISCONNECTED (constructor),
the loop's first write is CONNECTING and CONNECTING is written exactly
once; every in-loop write is CONNECTED (successful cycle) or ERROR
(classified failure), with a success cycle writing `[CONNECTED]` and a
classified failure writing ERROR; the final write is DISCONNECTED exactly
when the loop exits cleanly (on a fatal abort the last write is ERROR and
DISCONNECTED is never written). -/
theorem connection_state_transitions (cfg : Option Int) (outcomes : List CycleOutcome) :
    initialConnectionState = .disconnected ∧
    (backgroundLoop cfg outcomes).1.head? = some .connecting ∧
    (backgroundLoop cfg outcomes).1.count .connecting = 1 ∧
    (∀ s ∈ (runLoop cfg outcomes).1, s = .connected ∨ s = .error) ∧
    (backgroundLoop cfg outcomes).1.getLast? =
      some (if (backgroundLoop cfg outcomes).2 then ConnState.error else .disconnected) ∧
    (backgroundLoop cfg outcomes).1.count .disconnected =
      (if (backgroundLoop cfg outcomes).2 then 0 else 1) ∧
    (loopIter cfg .success).writes = [.connected] ∧
    (∀ e, (loopIter cfg (.failure e)).writes = [.error, .error]) := by
  have hmem := runLoop_mem cfg outcomes
  refine ⟨rfl, rfl, ?_, hmem, ?_, ?_, rfl, fun e => by cases e <;> rfl⟩
  · unfold backgroundLoop
    rw [List.count_cons_self]
    have h₁ : (runLoop cfg outcomes).1.count ConnState.connecting = 0 :=
      List.count_eq_zero.mpr (fun h => by rcases hmem _ h with h' | h' <;> simp at h')
    rw [List.count_append, h₁]
    by_cases hab : (runLoop cfg outcomes).2 <;> simp [hab]
  · unfold backgroundLoop
    by_cases hab : (runLoop cfg outcomes).2
    · rw [if_pos hab]
      simp only [hab, if_true, List.append_nil]
      have hlast := runLoop_getLast_of_aborted cfg outcomes hab
      have hne : (runLoop cfg outcomes).1 ≠ [] := by
        intro hnil; rw [hnil] at hlast; simp at hlast
      rw [show (ConnState.connecting :: (runLoop cfg outcomes).1) =
            [ConnState.connecting] ++ (runLoop cfg outcomes).1 from rfl,
          List.getLast?_append_of_ne_nil _ hne]
      exact hlast
    · rw [if_neg hab]
      simp only [eq_false_of_ne_true hab, if_false]
      rw [show (ConnState.connecting ::
            ((runLoop cfg outcomes).1 ++ [ConnState.disconnected])) =
            (ConnState.connecting :: (runLoop cfg outcomes).1) ++ [ConnState.disconnected]
            from rfl]
      rw [List.getLast?_concat]
      simp
  · unfold backgroundLoop
    have h₁ : (runLoop cfg outcomes).1.count ConnState.disconnected = 0 :=
      List.count_eq_zero.mpr (fun h => by rcases hmem _ h with h' | h' <;> simp at h')
    by_cases hab : (runLoop cfg outcomes).2
    · simp only [hab, if_true, List.append_nil]
      rw [List.count_cons_of_ne (by simp), h₁]
    · simp only [eq_false_of_ne_true hab, if_false]
      rw [List.count_cons_of_ne (by simp), List.count_append, h₁]
      rfl

/-! ## C10 — fatal termination -/

/-- C10: when some cycle raises an unclassified exception, the handler at
connector.py lines 191–195 writes ERROR, sets `healthy` to False and
re-raises, so the loop aborts: the final DISCONNECTED write at line 200
is skipped — DISCONNECTED is never written and the last connection-state
write is ERROR. -/
theorem fatal_termination (cfg : Option Int) (outcomes : List CycleOutcome)
    (h : CycleOutcome.fatal ∈ outcomes) :
    (backgroundLoop cfg outcomes).2 = true ∧
    healthyAfter cfg outcomes = false ∧
    (backgroundLoop cfg outcomes).1.getLast? = some .error ∧
    ConnState.disconnected ∉ (backgroundLoop cfg outcomes).1 ∧
    loopIter cfg .fatal =
      { writes := [.error, .error], sleep := none, healthyFalse := true, raises := true } := by
  have hab : (runLoop cfg outcomes).2 = true := (runLoop_aborted_iff cfg outcomes).mpr h
  have hbg : (backgroundLoop cfg outcomes).2 = true := hab
  refine ⟨hbg, ?_, ?_, ?_, rfl⟩
  · unfold healthyAfter
    rw [hbg]
    rfl
  · unfold backgroundLoop
    rw [hab]
    simp only [if_true, List.append_nil]
    have hlast := runLoop_getLast_of_aborted cfg outcomes hab
    have hne : (runLoop cfg outcomes).1 ≠ [] := by
      intro hnil; rw [hnil] at hlast; simp at hlast
    rw [show (ConnState.connecting :: (runLoop cfg outcomes).1) =
          [ConnState.connecting] ++ (runLoop cfg outcomes).1 from rfl,
        List.getLast?_append_of_ne_nil _ hne]
    exact hlast
  · unfold backgroundLoop
    rw [hab]
    simp only [if_true, List.append_nil, List.mem_cons]
    rintro (h' | h')
    · simp at h'
    · rcases runLoop_mem cfg outcomes _ h' with h'' | h'' <;> simp at h''

/-- Witness for `connection_state_transitions` at a concrete schedule. -/
theorem connection_state_transitions_witness :
    (backgroundLoop (some 180) [.success, .failure .retrieval]).1.count .connecting = 1 ∧
    (ConnState.connected = .connected ∨ ConnState.connected = .error) ∧
    (loopIter (some 180) (.failure .retrieval)).writes = [.error, .error] := by
  have h := connection_state_transitions (some 180) [.success, .failure .retrieval]
  exact ⟨h.2.2.1, h.2.2.2.1 .connected (by decide), h.2.2.2.2.2.2.2 .retrieval⟩

/-- Witness for `fatal_termination` at a concrete schedule. -/
theorem fatal_termination_witness :
    (backgroundLoop (some 180) [.success, .fatal]).2 = true ∧
    healthyAfter (some 180) [.success, .fatal] = false ∧
    (backgroundLoop (some 180) [.success, .fatal]).1.getLast? = some .error ∧
    ConnState.disconnected ∉ (backgroundLoop (some 180) [.success, .fatal]).1 := by
  have h := fatal_termination (some 180) [.success, .fatal] (by decide)
  exact ⟨h.1, h.2.1, h.2.2.1, h.2.2.2.1⟩

/-! ## C3 — session reuse -/

/-- C3 counterexample: two `SessionToken`s with identical credential
fields but distinct object identity. `SessionToken` defines no
`__eq__`/`__hash__`, so the sessions dict compares keys by identity: the
second `get_session` call misses the dict and constructs a fresh session
object rather than returning the first one. -/
theorem session_reuse_counterexample :
    SessionToken.fieldsEq ⟨"pk", "sk", "at", 0⟩ ⟨"pk", "sk", "at", 1⟩ ∧
    (SessionManager.get_session (fun s => s)
        (SessionManager.get_session (fun s => s)
          ⟨[], [], [], 0⟩ .volvoConnectedVehicle ⟨"pk", "sk", "at", 0⟩).2
        .volvoConnectedVehicle ⟨"pk", "sk", "at", 1⟩).1 ≠
      (SessionManager.get_session (fun s => s)
        ⟨[], [], [], 0⟩ .volvoConnectedVehicle ⟨"pk", "sk", "at", 0⟩).1 := by
  exact ⟨⟨rfl, rfl, rfl⟩, by decide⟩

/-- C3 amended: identity reuse holds only for the same `SessionToken`
object — a second `get_session` call with the *same* token that already
produced session `s` returns `s` again and leaves the registry state
unchanged. -/
theorem session_reuse_same_object (sha : String → String) (m : ManagerState)
    (svc : Service) (t : SessionToken) (s : VolvoSessionObj)
    (h : (SessionManager.get_session sha m svc t).1 = .ok s) :
    (SessionManager.get_session sha
        (SessionManager.get_session sha m svc t).2 svc t).1 = .ok s ∧
    (SessionManager.get_session sha
        (SessionManager.get_session sha m svc t).2 svc t).2 =
      (SessionManager.get_session sha m svc t).2 := by
  cases hl : m.lookupSession svc t with
  | some s₀ =>
    have h2 : SessionManager.get_session sha m svc t = (.ok s₀, m) := by
      unfold SessionManager.get_session
      rw [hl]
    have h2a : (SessionManager.get_session sha m svc t).1 = .ok s₀ := by rw [h2]
    have h2b : (SessionManager.get_session sha m svc t).2 = m := by rw [h2]
    have hs : s₀ = s := Except.ok.inj (h2a.symm.trans h)
    subst hs
    constructor
    · rw [h2b, h2a]
    · rw [h2b]
      exact h2b
  | none =>
    cases svc with
    | volvoConnectedVehicle =>
      have h2 : SessionManager.get_session sha m .volvoConnectedVehicle t =
          (.ok (mkVolvoSession sha m .volvoConnectedVehicle t),
           m.store .volvoConnectedVehicle t (mkVolvoSession sha m .volvoConnectedVehicle t)) := by
        unfold SessionManager.get_session
        rw [hl]
      have h2a : (SessionManager.get_session sha m .volvoConnectedVehicle t).1 =
          .ok (mkVolvoSession sha m .volvoConnectedVehicle t) := by rw [h2]
      have h2b : (SessionManager.get_session sha m .volvoConnectedVehicle t).2 =
          m.store .volvoConnectedVehicle t (mkVolvoSession sha m .volvoConnectedVehicle t) := by
        rw [h2]
      have hs : mkVolvoSession sha m .volvoConnectedVehicle t = s :=
        Except.ok.inj (h2a.symm.trans h)
      have hl2 : (m.store .volvoConnectedVehicle t
            (mkVolvoSession sha m .volvoConnectedVehicle t)).lookupSession
            .volvoConnectedVehicle t =
          some (mkVolvoSession sha m .volvoConnectedVehicle t) := by
        unfold ManagerState.lookupSession ManagerState.store
        rw [List.find?_cons_of_pos _ (by simp)]
        rfl
      have h3 : SessionManager.get_session sha
          (m.store .volvoConnectedVehicle t (mkVolvoSession sha m .volvoConnectedVehicle t))
          .volvoConnectedVehicle t =
          (.ok (mkVolvoSession sha m .volvoConnectedVehicle t),
           m.store .volvoConnectedVehicle t (mkVolvoSession sha m .volvoConnectedVehicle t)) := by
        unfold SessionManager.get_session
        rw [hl2]
      constructor
      · rw [h2b, h3, hs]
      · rw [h2b, h3]
    | volvoEnergy =>
      have h2a : (SessionManager.get_session sha m .volvoEnergy t).1 =
          .error (.valueError ("Unsupported service: " ++ Service.value .volvoEnergy)) := by
        unfold SessionManager.get_session
        rw [hl]
      cases h2a.symm.trans h
    | volvoLocation =>
      have h2a : (SessionManager.get_session sha m .volvoLocation t).1 =
          .error (.valueError ("Unsupported service: " ++ Service.value .volvoLocation)) := by
        unfold SessionManager.get_session
        rw [hl]
      cases h2a.symm.trans h

/-- Witness for `session_reuse_same_object` at a concrete registry. -/
theorem session_reuse_same_object_witness :
    (SessionManager.get_session (fun s => s)
        (SessionManager.get_session (fun s => s)
          ⟨[], [], [], 0⟩ .volvoConnectedVehicle ⟨"pk", "sk", "at", 7⟩).2
        .volvoConnectedVehicle ⟨"pk", "sk", "at", 7⟩).1 =
      .ok { sid := 0, accessToken := "at", timeout := none, retries := 0,
            cache := [], apiKeyHeader := "pk" } :=
  (session_reuse_same_object (fun s => s) ⟨[], [], [], 0⟩ .volvoConnectedVehicle
    ⟨"pk", "sk", "at", 7⟩
    { sid := 0, accessToken := "at", timeout := none, retries := 0,
      cache := [], apiKeyHeader := "pk" } (by decide)).1

/-! ## C2 — persist -/

/-- C2: `persist` on a registry holding the session created by
`get_session(VOLVO_CONNECTED_VEHICLE, SessionToken("pk","sk","at"))`
raises `AttributeError` instead of completing: line 152 of
session_manager.py reads `session.metadata`, but `VolvoSession` never
binds a `metadata` attribute (and `get_session` drops the metadata it
loads from the tokenstore instead of attaching it to the session). -/
theorem persist_raises_attributeError :
    SessionManager.persist (fun s => s)
      (SessionManager.get_session (fun s => s)
        ⟨[], [], [], 0⟩ .volvoConnectedVehicle ⟨"pk", "sk", "at", 0⟩).2 =
    .error (.attributeError "metadata") := by decide

/-! ## C9 — unsupported services fail fast -/

/-- C9: for any service other than `VOLVO_CONNECTED_VEHICLE`,
`get_session` fails with the `Unsupported service` `ValueError` and leaves
the registry unchanged (no session is stored — line 137 is after the
raise), given the reachable-state invariant that only
connected-vehicle sessions are ever stored; consequently `Connector.__init__`
with a non-null `location_token` (and otherwise valid config) always
raises that `ValueError`, because it requests a `VOLVO_LOCATION` session
(connector.py lines 133–137). -/
theorem unsupported_service_fail_fast
    (sha : String → String) (m : ManagerState) (svc : Service) (t : SessionToken)
    (hsvc : svc ≠ .volvoConnectedVehicle)
    (hinv : ∀ e ∈ m.sessions, e.1.1 = Service.volvoConnectedVehicle)
    (cfg : VolvoConfig) (ts : TokenStore) (cs : CacheStore) (p sk tok lt : String)
    (hp : cfg.vccApiKeyPrimary = some p) (hs : cfg.vccApiKeySecondary = some sk)
    (ht : cfg.connectedVehicleToken = some tok) (hlt : cfg.locationToken = some lt)
    (hint : ∀ i, cfg.interval = some i → 60 ≤ i) :
    SessionManager.get_session sha m svc t =
      (.error (.valueError ("Unsupported service: " ++ svc.value)), m) ∧
    connectorInit sha ts cs cfg =
      .error (.valueError "Unsupported service: VolvoLocationAPI") := by
  constructor
  · have hl : m.lookupSession svc t = none := by
      unfold ManagerState.lookupSession
      rw [List.find?_eq_none.mpr ?_]
      · rfl
      · intro e he
        have hcv := hinv e he
        simp [hcv, Ne.symm hsvc]
    cases svc with
    | volvoConnectedVehicle => exact absurd rfl hsvc
    | volvoEnergy =>
      unfold SessionManager.get_session
      rw [hl]
    | volvoLocation =>
      unfold SessionManager.get_session
      rw [hl]
  · unfold connectorInit
    rw [hp, hs, ht, hlt]
    cases hi : cfg.interval with
    | none =>
      simp [pure, Except.pure, Bind.bind, Except.bind, SessionManager.get_session,
            ManagerState.lookupSession, ManagerState.store, List.find?, Service.value]
    | some i =>
      have h60 : ¬ i < 60 := by
        have := hint i hi
        omega
      simp [pure, Except.pure, Bind.bind, Except.bind, h60, SessionManager.get_session,
            ManagerState.lookupSession, ManagerState.store, List.find?, Service.value]

/-- Witness for `unsupported_service_fail_fast` at a concrete registry
and configuration. -/
theorem unsupported_service_fail_fast_witness :
    SessionManager.get_session (fun s => s) ⟨[], [], [], 0⟩ .volvoLocation
        ⟨"pk", "sk", "at", 0⟩ =
      (.error (.valueError ("Unsupported service: " ++ Service.value .volvoLocation)),
       ⟨[], [], [], 0⟩) ∧
    connectorInit (fun s => s) [] []
        { vccApiKeyPrimary := some "pk", vccApiKeySecondary := some "sk",
          connectedVehicleToken := some "ct", locationToken := some "lt" } =
      .error (.valueError "Unsupported service: VolvoLocationAPI") := by
  have h := unsupported_service_fail_fast (fun s => s) ⟨[], [], [], 0⟩ .volvoLocation
    ⟨"pk", "sk", "at", 0⟩ (by decide) (fun e he => absurd he (List.not_mem_nil e))
    { vccApiKeyPrimary := some "pk", vccApiKeySecondary := some "sk",
      connectedVehicleToken := some "ct", locationToken := some "lt" }
    [] [] "pk" "sk" "ct" "lt" rfl rfl rfl rfl (fun i hi => Option.noConfusion hi)
  exact ⟨h.1, h.2⟩

/-! ## C8 — identifier stability and injectivity -/

/-- Splitting at the first separator: a colon-free prefix before a `':'`
determines both the prefix and the remainder. -/
theorem colon_split (A₁ : List Char) : ∀ (A₂ r₁ r₂ : List Char),
    ':' ∉ A₁ → ':' ∉ A₂ → A₁ ++ ':' :: r₁ = A₂ ++ ':' :: r₂ → A₁ = A₂ ∧ r₁ = r₂ := by
  induction A₁ with
  | nil =>
    intro A₂ r₁ r₂ _ h₂ h
    cases A₂ with
    | nil => simpa using h
    | cons b bs =>
      simp only [List.nil_append, List.cons_append, List.cons.injEq] at h
      exact absurd (h.1 ▸ List.mem_cons_self b bs) h₂
  | cons a as ih =>
    intro A₂ r₁ r₂ h₁ h₂ h
    cases A₂ with
    | nil =>
      simp only [List.cons_append, List.nil_append, List.cons.injEq] at h
      exact absurd (h.1 ▸ List.mem_cons_self a as) h₁
    | cons b bs =>
      simp only [List.cons_append, List.cons.injEq] at h
      obtain ⟨hab, hrest⟩ := h
      have h₁' : ':' ∉ as := fun hm => h₁ (List.mem_cons_of_mem _ hm)
      have h₂' : ':' ∉ bs := fun hm => h₂ (List.mem_cons_of_mem _ hm)
      obtain ⟨he, hr⟩ := ih bs r₁ r₂ h₁' h₂' hrest
      exact ⟨by rw [hab, he], hr⟩

theorem service_value_no_colon (s : Service) : ':' ∉ (Service.value s).data := by
  cases s <;> decide

theorem service_value_len (s : Service) : 5 < (Service.value s).data.length := by
  cases s <;> decide

/-- The sixth character of each service's enum value, unique per service. -/
def serviceTag : Service → Char
  | .volvoConnectedVehicle => 'C'
  | .volvoEnergy => 'E'
  | .volvoLocation => 'L'

theorem service_value_tag (s : Service) :
    (Service.value s).data[5]? = some (serviceTag s) := by
  cases s <;> rfl

/-- The three service value strings are position-5 distinguishable: a
service value followed by anything determines the service and the rest. -/
theorem service_prefix_inj (s₁ s₂ : Service) (p₁ p₂ : List Char)
    (h : (Service.value s₁).data ++ p₁ = (Service.value s₂).data ++ p₂) :
    s₁ = s₂ ∧ p₁ = p₂ := by
  have hs : s₁ = s₂ := by
    have h5 : ((Service.value s₁).data ++ p₁)[5]? = ((Service.value s₂).data ++ p₂)[5]? := by
      rw [h]
    rw [List.getElem?_append_left (service_value_len s₁),
        List.getElem?_append_left (service_value_len s₂),
        service_value_tag, service_value_tag] at h5
    have htag := Option.some.inj h5
    cases s₁ <;> cases s₂ <;> first
      | rfl
      | exact absurd htag (by decide)
  subst hs
  exact ⟨rfl, List.append_cancel_left h⟩

/-- Character-level shape of the digest input
`service.value + f'{primary}:{secondary}:{access_token}'`. -/
theorem hashInput_data (svc : Service) (t : SessionToken) :
    (generateHashInput svc t).data =
      ((Service.value svc).data ++ t.vccApiKeyPrimary.data) ++
        ':' :: (t.vccApiKeySecondary.data ++ ':' :: t.accessToken.data) := by
  simp [generateHashInput, SessionToken.toStr, String.data_append,
        show (":" : String).data = [':'] from rfl]

/-- C8 amended: `generate_identifier` is deterministic — tokens with
identical credential fields (regardless of object identity) yield the
identical identifier for any digest function; and, provided the two API
key fields contain no `':'` (the f-string separator), distinct
(service, credential-fields) pairs always produce distinct digest
*inputs* — so distinct identifiers up to SHA-512 collision resistance.
Without that proviso the claim is false (`identifier_collision`). -/
theorem identifier_stability :
    (∀ (sha : String → String) (svc : Service) (t₁ t₂ : SessionToken),
        t₁.fieldsEq t₂ → generate_identifier sha svc t₁ = generate_identifier sha svc t₂) ∧
    (∀ (s₁ s₂ : Service) (t₁ t₂ : SessionToken),
        ':' ∉ t₁.vccApiKeyPrimary.data → ':' ∉ t₁.vccApiKeySecondary.data →
        ':' ∉ t₂.vccApiKeyPrimary.data → ':' ∉ t₂.vccApiKeySecondary.data →
        generateHashInput s₁ t₁ = generateHashInput s₂ t₂ →
        s₁ = s₂ ∧ t₁.fieldsEq t₂) := by
  constructor
  · intro sha svc t₁ t₂ hf
    obtain ⟨h1, h2, h3⟩ := hf
    unfold generate_identifier generate_hash generateHashInput SessionToken.toStr
    rw [h1, h2, h3]
  · intro s₁ s₂ t₁ t₂ hp₁ hs₁ hp₂ hs₂ h
    have hd := congrArg String.data h
    rw [hashInput_data, hashInput_data] at hd
    have hnc₁ : ':' ∉ (Service.value s₁).data ++ t₁.vccApiKeyPrimary.data := by
      intro hm
      rcases List.mem_append.mp hm with hm | hm
      · exact service_value_no_colon s₁ hm
      · exact hp₁ hm
    have hnc₂ : ':' ∉ (Service.value s₂).data ++ t₂.vccApiKeyPrimary.data := by
      intro hm
      rcases List.mem_append.mp hm with hm | hm
      · exact service_value_no_colon s₂ hm
      · exact hp₂ hm
    obtain ⟨hA, hrest⟩ := colon_split _ _ _ _ hnc₁ hnc₂ hd
    obtain ⟨hS, hAcc⟩ := colon_split _ _ _ _ hs₁ hs₂ hrest
    obtain ⟨hsvc, hP⟩ := service_prefix_inj s₁ s₂ _ _ hA
    exact ⟨hsvc, String.ext hP, String.ext hS, String.ext hAcc⟩

/-- Witness for `identifier_stability` at concrete inputs. -/
theorem identifier_stability_witness :
    generate_identifier (fun s => s) .volvoEnergy ⟨"p", "q", "a", 0⟩ =
      generate_identifier (fun s => s) .volvoEnergy ⟨"p", "q", "a", 1⟩ ∧
    (Service.volvoEnergy = Service.volvoEnergy ∧
      SessionToken.fieldsEq ⟨"p", "q", "a", 0⟩ ⟨"p", "q", "a", 1⟩) := by
  have h := identifier_stability
  exact ⟨h.1 (fun s => s) .volvoEnergy ⟨"p", "q", "a", 0⟩ ⟨"p", "q", "a", 1⟩ ⟨rfl, rfl, rfl⟩,
         h.2 .volvoEnergy .volvoEnergy ⟨"p", "q", "a", 0⟩ ⟨"p", "q", "a", 1⟩
           (by decide) (by decide) (by decide) (by decide) rfl⟩

/-- C8 counterexample: when a credential field contains `':'`, two tokens
with *different* credential fields produce the *same* digest input string
(`"VolvoConnectedVehicleAPIa:b:c:d"`), hence the same identifier for any
digest function — the no-collision part of the claim fails. -/
theorem identifier_collision :
    ¬ SessionToken.fieldsEq ⟨"a:b", "c", "d", 0⟩ ⟨"a", "b:c", "d", 1⟩ ∧
    generateHashInput .volvoConnectedVehicle ⟨"a:b", "c", "d", 0⟩ =
      generateHashInput .volvoConnectedVehicle ⟨"a", "b:c", "d", 1⟩ ∧
    generate_identifier (fun s => s) .volvoConnectedVehicle ⟨"a:b", "c", "d", 0⟩ =
      generate_identifier (fun s => s) .volvoConnectedVehicle ⟨"a", "b:c", "d", 1⟩ := by
  refine ⟨?_, by decide, by decide⟩
  intro hf
  exact absurd hf.1 (by decide)

end Volvo
